import Mathlib

/-!
Verification development for the zeus-tips-bot repository.

Shallow embedding of the bot's core jobs (src/bot.py) and data-access layer
(src/database.py):

* Python strings are modelled as `List Char`; `str.lower` is modelled on the
  ASCII range (none of the texts this development reasons about use non-ASCII
  uppercase letters); timestamps are modelled as integers ordered
  chronologically (the `strptime` round-trip of `database.py` is assumed
  faithful).
* Floats (confidence, odds) are modelled as `ℚ`.
* The external collaborators (sports-data provider, AI provider, messaging
  transport) are modelled as oracle functions supplied to each job; a job's
  side effects (delivered messages, store writes) are returned as explicit
  state.
* Messages are modelled as structured values carrying the fields the source
  interpolates into the message text; pure formatting (emoji, separators,
  number formatting) is not modelled.
-/

set_option maxRecDepth 10000

namespace ZeusBot

/-! ## String utilities (Python semantics) -/

/-- Python regex `\s` character class (space, tab, newline, CR, VT, FF). -/
def isSpaceChar (c : Char) : Bool :=
  c = ' ' || c = '\t' || c = '\n' || c = '\r' || c = '\x0b' || c = '\x0c'

/-- ASCII decimal digit, Python regex `\d` (ASCII). -/
def isDigitChar (c : Char) : Bool :=
  '0' ≤ c && c ≤ '9'

/-- Python `str.lower` on one character, modelled on the ASCII range. -/
def pyLowerChar (c : Char) : Char :=
  if 'A' ≤ c && c ≤ 'Z' then Char.ofNat (c.toNat + 32) else c

/-- Python `str.lower`, modelled on the ASCII range. -/
def pyLower (s : List Char) : List Char :=
  s.map pyLowerChar

/-- Python `str.strip()`: drop whitespace from both ends. -/
def pyStrip (s : List Char) : List Char :=
  ((s.dropWhile isSpaceChar).reverse.dropWhile isSpaceChar).reverse

/-- Does `s` begin with `needle`? -/
def pyStartsWith : List Char → List Char → Bool
  | [], _ => true
  | _ :: _, [] => false
  | a :: as, b :: bs => a = b && pyStartsWith as bs

/-- Python substring test `needle in hay`. -/
def pyContains (needle : List Char) : List Char → Bool
  | [] => needle.isEmpty
  | hay@(_ :: t) => pyStartsWith needle hay || pyContains needle t

/-- Auxiliary for `pySplit`: `cur` is the current (reversed) word. -/
def pySplitAux : List Char → List Char → List (List Char)
  | [], cur => if cur.isEmpty then [] else [cur.reverse]
  | c :: cs, cur =>
    if isSpaceChar c then
      if cur.isEmpty then pySplitAux cs [] else cur.reverse :: pySplitAux cs []
    else pySplitAux cs (c :: cur)

/-- Python `str.split()` with no argument: split on whitespace runs,
producing no empty words. -/
def pySplit (s : List Char) : List (List Char) :=
  pySplitAux s []

/-- Value of a digit string, most significant first. -/
def digitsToNat (ds : List Char) : ℕ :=
  ds.foldl (fun n c => 10 * n + (c.toNat - '0'.toNat)) 0

/-- Python `float(g.replace(",", "."))` for a regex group of shape
`\d+[.,]?\d*`, as an exact rational. -/
def parseDecimal (g : List Char) : ℚ :=
  let intPart := g.takeWhile isDigitChar
  let rest := g.dropWhile isDigitChar
  let fracPart : List Char :=
    match rest with
    | [] => []
    | _ :: r => r
  (digitsToNat intPart : ℚ) + (digitsToNat fracPart : ℚ) / (10 : ℚ) ^ fracPart.length

/-- Match the tail of regex `\s*(\d+[.,]?\d*)` at the start of `s`,
returning the captured group: skip whitespace greedily, then require at
least one digit, then optionally a `.` or `,` separator followed by more
digits. -/
def matchNumberAfter (s : List Char) : Option (List Char) :=
  let rest := s.dropWhile isSpaceChar
  let ds := rest.takeWhile isDigitChar
  if ds.isEmpty then none
  else
    match rest.dropWhile isDigitChar with
    | c :: r2 =>
      if c = '.' || c = ',' then some (ds ++ c :: r2.takeWhile isDigitChar)
      else some ds
    | [] => some ds

/-- `re.search(key + r'\s*(\d+[.,]?\d*)', s)`: leftmost occurrence of `key`
followed by optional whitespace and a number; returns the captured number
group of the first position where the whole pattern matches. -/
def searchKeyNumber (key : List Char) : List Char → Option (List Char)
  | [] => none
  | s@(_ :: t) =>
    if pyStartsWith key s then
      match matchNumberAfter (s.drop key.length) with
      | some g => some g
      | none => searchKeyNumber key t
    else searchKeyNumber key t

def overKey : List Char := "over".toList
def underKey : List Char := "under".toList

/-- `re.search(r'over\s*(\d+[.,]?\d*)', s)` (captured group). -/
def searchOver (s : List Char) : Option (List Char) :=
  searchKeyNumber overKey s

/-- `re.search(r'under\s*(\d+[.,]?\d*)', s)` (captured group). -/
def searchUnder (s : List Char) : Option (List Char) :=
  searchKeyNumber underKey s

/-! ## Outcome Evaluator (bot.py `evaluate_prediction`, lines 173-237) -/

inductive Verdict where
  | green
  | red
deriving DecidableEq, Repr

/-- Result payload returned by the data provider for a finished fixture
(api_integrations.get_fixture_result).  `none` goal entries model JSON
nulls; `evaluate_prediction` coerces them to 0 (`... or 0`). -/
structure FixtureResult where
  status_short : List Char
  home_goals : Option ℕ
  away_goals : Option ℕ
  home_team : List Char
  away_team : List Char
deriving DecidableEq

/-- `prediction_text.lower().strip()`. -/
def normText (t : List Char) : List Char :=
  pyStrip (pyLower t)

def ambasMarcamStr : List Char := "ambas marcam".toList
def bttsStr : List Char := "btts".toList
def naoStr : List Char := "não".toList
def noStr : List Char := "no".toList
def empateStr : List Char := "empate".toList
def drawStr : List Char := "draw".toList
def vitoriaStr : List Char := "vitória".toList
def vencerStr : List Char := "vencer".toList
def winStr : List Char := "win".toList
def ganhaStr : List Char := "ganha".toList

/-- `"ambas marcam" in pred_lower or "btts" in pred_lower`. -/
def bttsKw (s : List Char) : Bool :=
  pyContains ambasMarcamStr s || pyContains bttsStr s

/-- `"não" in pred_lower or "no" in pred_lower`. -/
def bttsNegKw (s : List Char) : Bool :=
  pyContains naoStr s || pyContains noStr s

/-- `"empate" in pred_lower or "draw" in pred_lower`. -/
def drawKw (s : List Char) : Bool :=
  pyContains empateStr s || pyContains drawStr s

/-- `"vitória" in ... or "vencer" in ... or "win" in ... or "ganha" in ...`. -/
def winKw (s : List Char) : Bool :=
  pyContains vitoriaStr s || pyContains vencerStr s ||
    pyContains winStr s || pyContains ganhaStr s

/-- `any(w in pred_lower for w in team_lower.split() if len(w) > 3)`. -/
def mentionsTeam (team_lower pred_lower : List Char) : Bool :=
  (pySplit team_lower).any fun w => decide (3 < w.length) && pyContains w pred_lower

/-- Body of `evaluate_prediction` once `fixture_result` is known truthy:
every branch returns green or red (bot.py lines 186-237). -/
def evaluateCore (prediction_text : List Char) (fr : FixtureResult) : Verdict :=
  let home_goals := fr.home_goals.getD 0
  let away_goals := fr.away_goals.getD 0
  let total_goals := home_goals + away_goals
  let home_team := pyLower fr.home_team
  let away_team := pyLower fr.away_team
  let pred_lower := normText prediction_text
  match searchOver pred_lower with
  | some g => if (total_goals : ℚ) > parseDecimal g then .green else .red
  | none =>
    match searchUnder pred_lower with
    | some g => if (total_goals : ℚ) < parseDecimal g then .green else .red
    | none =>
      if bttsKw pred_lower then
        if bttsNegKw pred_lower then
          if home_goals = 0 ∨ away_goals = 0 then .green else .red
        else
          if home_goals > 0 ∧ away_goals > 0 then .green else .red
      else
        let pred_mentions_home := mentionsTeam home_team pred_lower
        let pred_mentions_away := mentionsTeam away_team pred_lower
        if drawKw pred_lower then
          if home_goals = away_goals then .green else .red
        else if winKw pred_lower && pred_mentions_home && !pred_mentions_away then
          if home_goals > away_goals then .green else .red
        else if winKw pred_lower && pred_mentions_away && !pred_mentions_home then
          if away_goals > home_goals then .green else .red
        else if pred_mentions_home && !pred_mentions_away then
          if home_goals > away_goals then .green else .red
        else if pred_mentions_away && !pred_mentions_home then
          if away_goals > home_goals then .green else .red
        else .red

/-- bot.py `evaluate_prediction(prediction_text, fixture_result)`.
`none` models a falsy `fixture_result` argument (Python `None` or an empty
mapping), for which the source returns `None` before reading any field. -/
def evaluate_prediction (prediction_text : List Char) :
    Option FixtureResult → Option Verdict
  | none => none
  | some fr => some (evaluateCore prediction_text fr)

/-! ## Prediction Record Store (database.py) -/

def pendingStr : List Char := "pending".toList
def greenStr : List Char := "green".toList
def redStr : List Char := "red".toList
def activeStr : List Char := "active".toList
def expiredStr : List Char := "expired".toList

/-- A row of the `predictions_history` table.  `fixture_id` is nullable in
the schema; `id` is the `AUTOINCREMENT` primary key. -/
structure HistRow where
  id : ℕ
  fixture_id : Option ℕ
  championship : List Char
  team_a : List Char
  team_b : List Char
  match_time : List Char
  analysis : List Char
  prediction : List Char
  confidence : ℚ
  suggested_odd : ℚ
  result : List Char
  date_added : List Char
deriving DecidableEq

/-- database.py `get_pending_predictions`:
`SELECT ... FROM predictions_history WHERE result = 'pending'`. -/
def get_pending_predictions (db : List HistRow) : List HistRow :=
  db.filter fun r => decide (r.result = pendingStr)

/-- database.py `update_prediction_result`:
`UPDATE predictions_history SET result = ? WHERE id = ?`. -/
def update_prediction_result (db : List HistRow) (prediction_id : ℕ)
    (result : List Char) : List HistRow :=
  db.map fun r => if r.id = prediction_id then { r with result := result } else r

/-- database.py `get_daily_predictions_summary`:
`SELECT ... WHERE date_added LIKE 'date%'` (string-prefix match). -/
def get_daily_predictions_summary (db : List HistRow) (date_str : List Char) :
    List HistRow :=
  db.filter fun r => pyStartsWith date_str r.date_added

/-- A row of the `subscribers` table (`user_id` is the primary key;
dates modelled as integer timestamps). -/
structure Subscriber where
  user_id : ℤ
  username : List Char
  start_date : ℤ
  end_date : ℤ
  plan : List Char
  status : List Char
deriving DecidableEq

/-- database.py `get_all_active_subscribers`:
`SELECT user_id, end_date FROM subscribers WHERE status = 'active'`. -/
def get_all_active_subscribers (db : List Subscriber) : List (ℤ × ℤ) :=
  (db.filter fun s => decide (s.status = activeStr)).map fun s => (s.user_id, s.end_date)

/-- database.py `update_subscriber_status`:
`UPDATE subscribers SET status = ? WHERE user_id = ?`. -/
def update_subscriber_status (db : List Subscriber) (user_id : ℤ)
    (status : List Char) : List Subscriber :=
  db.map fun s => if s.user_id = user_id then { s with status := status } else s

/-! ## Prediction Generation Job (bot.py `send_daily_predictions`) -/

/-- One parsed prediction candidate (the dict appended to
`all_predictions`, bot.py lines 795-806). -/
structure Prediction where
  match_id : ℕ
  championship : List Char
  team_a : List Char
  team_b : List Char
  match_time : List Char
  analysis : List Char
  prediction : List Char
  confidence : ℚ
  suggested_odd : ℚ
  market : List Char
deriving DecidableEq

/-- bot.py `PRIORITY_LEAGUES` (the dict's keys: API-Football league ids). -/
def PRIORITY_LEAGUES : List ℕ :=
  [71, 72, 73, 13, 11, 39, 140, 135, 78, 61, 94, 88, 2, 3, 1, 4]

/-- `f["league"]["id"] in PRIORITY_LEAGUES`. -/
def isPriorityLeague (league_id : ℕ) : Bool :=
  PRIORITY_LEAGUES.contains league_id

def leagueTypeLeague : List Char := "league".toList
def leagueTypeCup : List Char := "cup".toList

/-- One fixture returned by `get_fixtures_by_date`.  The per-fixture
statistics fetch, AI analysis call and label-prefix parsing (bot.py lines
756-806) are external-collaborator interactions; they are modelled by the
`candidate` oracle field: `some p` when the fixture yields a parsed
candidate appended to `all_predictions`, `none` when any of those steps
fails or is skipped (`continue`). -/
structure Fixture where
  league_id : ℕ
  league_type : List Char
  candidate : Option Prediction

/-- A message sent to the VIP channel by the generation job, as a
structured value: the fields interpolated into the message text. -/
inductive Message where
  /-- `format_prediction_message(pred)` (individual prediction). -/
  | individual (p : Prediction)
  /-- `build_daily_multiple_message`: the three chosen predictions, the
  combined odd, and the fixed stake suggestion (percent of bankroll). -/
  | multiple (top3 : List Prediction) (combined_odd : ℚ) (stake_pct : ℚ)
deriving DecidableEq

/-- bot.py `build_daily_multiple_message` (lines 134-166): `None` when
fewer than 3 predictions exist, otherwise the top 3 (list already sorted
by confidence) with `combined_odd` the running product of their odds,
starting from `1.0`, and the fixed "1% da banca" stake line. -/
def build_daily_multiple_message (all_predictions : List Prediction) : Option Message :=
  if all_predictions.length < 3 then none
  else
    let top3 := all_predictions.take 3
    let combined_odd := top3.foldl (fun acc p => acc * p.suggested_odd) 1
    some (Message.multiple top3 combined_odd 1)

/-- The row inserted by database.py `add_prediction_history` for a
distributed prediction (result 'pending', `date_added` = current time);
the `AUTOINCREMENT` id is assigned by the store and not modelled. -/
structure HistInsert where
  fixture_id : ℕ
  championship : List Char
  team_a : List Char
  team_b : List Char
  match_time : List Char
  analysis : List Char
  prediction : List Char
  confidence : ℚ
  suggested_odd : ℚ
  result : List Char
  date_added : List Char
deriving DecidableEq

/-- The `add_prediction_history(...)` call at bot.py lines 821-825. -/
def add_prediction_history (p : Prediction) (now : List Char) : HistInsert :=
  { fixture_id := p.match_id, championship := p.championship, team_a := p.team_a,
    team_b := p.team_b, match_time := p.match_time, analysis := p.analysis,
    prediction := p.prediction, confidence := p.confidence,
    suggested_odd := p.suggested_odd, result := pendingStr, date_added := now }

/-- Candidate-collection loop (bot.py lines 739-806): walk the ordered
fixtures, stop once `predictions_to_send + 5` candidates were gathered
(`limit`), append each fixture's parsed candidate when one is produced. -/
def collectCandidates (limit : ℕ) : List Fixture → List Prediction → List Prediction
  | [], acc => acc
  | f :: fs, acc =>
    if limit ≤ acc.length then acc
    else
      match f.candidate with
      | some p => collectCandidates limit fs (acc ++ [p])
      | none => collectCandidates limit fs acc

/-- Insert `x` into `l` before the first element whose confidence is not
above `x`'s (so an element equal in confidence to `x` ends up after `x`). -/
def insertByConfidence (x : Prediction) : List Prediction → List Prediction
  | [] => [x]
  | y :: ys =>
    if y.confidence ≤ x.confidence then x :: y :: ys
    else y :: insertByConfidence x ys

/-- `all_predictions.sort(key=lambda x: x["confidence"], reverse=True)`
(bot.py line 809): Python's sort is stable and `reverse=True` keeps
equal-key elements in their original order; this insertion sort produces
exactly that arrangement (non-increasing confidence, ties in input
order). -/
def sort_by_confidence : List Prediction → List Prediction
  | [] => []
  | x :: xs => insertByConfidence x (sort_by_confidence xs)

/-- State of the individual-send loop (bot.py lines 812-829): delivered
messages, store inserts so far, `sent_count`, and the number of
`send_message` attempts made (used to consult the transport oracle). -/
structure SendLoopState where
  messages : List Message
  history : List HistInsert
  sent_count : ℕ
  attempts : ℕ
deriving DecidableEq

/-- The send loop: for each prediction, attempt to send; on success
(`net` true for this attempt) the message is delivered and
`add_prediction_history` runs; on failure (exception) the error is logged
and nothing is persisted for that prediction. -/
def send_predictions_loop (net : ℕ → Bool) (now : List Char) :
    List Prediction → SendLoopState → SendLoopState
  | [], st => st
  | p :: ps, st =>
    if net st.attempts then
      send_predictions_loop net now ps
        { messages := st.messages ++ [Message.individual p],
          history := st.history ++ [add_prediction_history p now],
          sent_count := st.sent_count + 1,
          attempts := st.attempts + 1 }
    else
      send_predictions_loop net now ps
        { messages := st.messages, history := st.history,
          sent_count := st.sent_count, attempts := st.attempts + 1 }

/-- Environment of one `send_daily_predictions` run: the configured
channel id (`get_vip_channel_id_from_db()`), the day's fixtures, the
transport oracle (`net n` = whether the n-th `send_message` attempt of
this run succeeds), and the current time string. -/
structure DailyEnv where
  vip : Option ℤ
  fixtures : List Fixture
  net : ℕ → Bool
  now : List Char

/-- `[f for f in fixtures_data if f["league"]["type"] == "league" or
f["league"]["type"] == "cup"]`. -/
def football_fixtures (env : DailyEnv) : List Fixture :=
  env.fixtures.filter fun f =>
    decide (f.league_type = leagueTypeLeague) || decide (f.league_type = leagueTypeCup)

/-- `[f for f in football_fixtures if f["league"]["id"] in PRIORITY_LEAGUES]`. -/
def priority_fixtures (env : DailyEnv) : List Fixture :=
  (football_fixtures env).filter fun f => isPriorityLeague f.league_id

/-- `[f for f in football_fixtures if f["league"]["id"] not in PRIORITY_LEAGUES]`. -/
def other_fixtures (env : DailyEnv) : List Fixture :=
  (football_fixtures env).filter fun f => !isPriorityLeague f.league_id

/-- `sorted_fixtures = priority_fixtures + other_fixtures`. -/
def sorted_fixtures (env : DailyEnv) : List Fixture :=
  priority_fixtures env ++ other_fixtures env

/-- `predictions_to_send = 10 if num_games >= 6 else 3` with
`num_games = len(sorted_fixtures)`. -/
def predictions_to_send (env : DailyEnv) : ℕ :=
  if 6 ≤ (sorted_fixtures env).length then 10 else 3

/-- The candidate list in fixture-discovery order (before the sort). -/
def collected_candidates (env : DailyEnv) : List Prediction :=
  collectCandidates (predictions_to_send env + 5) (sorted_fixtures env) []

/-- `all_predictions` after collection and the confidence sort. -/
def all_predictions (env : DailyEnv) : List Prediction :=
  sort_by_confidence (collected_candidates env)

/-- Result of the individual-send loop: the loop enumerates the sorted
list and breaks at index `predictions_to_send`, i.e. it processes
`all_predictions.take predictions_to_send`. -/
def send_loop_out (env : DailyEnv) : SendLoopState :=
  send_predictions_loop env.net env.now
    ((all_predictions env).take (predictions_to_send env))
    { messages := [], history := [], sent_count := 0, attempts := 0 }

/-- Observable effects of one generation-job run. -/
structure Effects where
  messages : List Message
  history : List HistInsert
  sent_count : ℕ
deriving DecidableEq

/-- bot.py `send_daily_predictions` (lines 706-845): warn-and-return when
no channel id is configured; return when no fixtures exist; otherwise run
the send loop, then — when `len(all_predictions) >= 3` — build the daily
multiple and attempt to send it (one further transport attempt). -/
def send_daily_predictions (env : DailyEnv) : Effects :=
  match env.vip with
  | none => { messages := [], history := [], sent_count := 0 }
  | some _ =>
    if env.fixtures.isEmpty then { messages := [], history := [], sent_count := 0 }
    else
      let out := send_loop_out env
      if 3 ≤ (all_predictions env).length then
        match build_daily_multiple_message (all_predictions env) with
        | some m =>
          if env.net out.attempts then
            { messages := out.messages ++ [m], history := out.history,
              sent_count := out.sent_count }
          else
            { messages := out.messages, history := out.history,
              sent_count := out.sent_count }
        | none =>
          { messages := out.messages, history := out.history, sent_count := out.sent_count }
      else
        { messages := out.messages, history := out.history, sent_count := out.sent_count }

/-! ## Result Reconciliation Job (bot.py `check_results`, lines 240-321) -/

def ftStr : List Char := "FT".toList
def aetStr : List Char := "AET".toList
def penStr : List Char := "PEN".toList

def verdictStr : Verdict → List Char
  | .green => greenStr
  | .red => redStr

/-- The GREEN/RED notification sent to the VIP channel for one resolved
prediction (bot.py lines 295-311), as a structured value; `delta` is the
profit (`suggested_odd - 1 if suggested_odd else 0`) for green and the
fixed `-1.00` unit loss for red. -/
structure ResultNotif where
  verdict : Verdict
  team_a : List Char
  team_b : List Char
  home_goals : ℕ
  away_goals : ℕ
  championship : List Char
  prediction : List Char
  delta : ℚ
deriving DecidableEq

def result_notification (p : HistRow) (fr : FixtureResult) (v : Verdict) : ResultNotif :=
  { verdict := v, team_a := p.team_a, team_b := p.team_b,
    home_goals := fr.home_goals.getD 0, away_goals := fr.away_goals.getD 0,
    championship := p.championship, prediction := p.prediction,
    delta :=
      match v with
      | .green => if p.suggested_odd ≠ 0 then p.suggested_odd - 1 else 0
      | .red => -1 }

/-- State threaded through the reconciliation loop: the store, the
delivered notifications, and the transport attempts made so far. -/
structure CheckState where
  db : List HistRow
  notifs : List ResultNotif
  attempts : ℕ
deriving DecidableEq

/-- One iteration of the `for pred_row in pending` loop: skip when
`fixture_id` is falsy (`None` or 0), when the provider has no result, or
when the fixture status is not terminal; otherwise evaluate, persist the
verdict with `update_prediction_result`, and — only when a channel id is
configured — attempt one notification send. -/
def check_results_step (vip : Option ℤ) (provider : ℕ → Option FixtureResult)
    (net : ℕ → Bool) (st : CheckState) (p : HistRow) : CheckState :=
  match p.fixture_id with
  | none => st
  | some fid =>
    if fid = 0 then st
    else
      match provider fid with
      | none => st
      | some fr =>
        if decide (fr.status_short = ftStr) || decide (fr.status_short = aetStr) ||
            decide (fr.status_short = penStr) then
          match evaluate_prediction p.prediction (some fr) with
          | none => st
          | some v =>
            let db2 := update_prediction_result st.db p.id (verdictStr v)
            match vip with
            | none => { db := db2, notifs := st.notifs, attempts := st.attempts }
            | some _ =>
              if net st.attempts then
                { db := db2, notifs := st.notifs ++ [result_notification p fr v],
                  attempts := st.attempts + 1 }
              else
                { db := db2, notifs := st.notifs, attempts := st.attempts + 1 }
        else st

/-- bot.py `check_results`: fetches the channel id but does NOT return
when it is missing; fetches the pending predictions once, returns if none,
otherwise processes each pending row in order. -/
def check_results (vip : Option ℤ) (provider : ℕ → Option FixtureResult)
    (net : ℕ → Bool) (db : List HistRow) : CheckState :=
  let pending := get_pending_predictions db
  if pending.isEmpty then { db := db, notifs := [], attempts := 0 }
  else pending.foldl (check_results_step vip provider net) { db := db, notifs := [], attempts := 0 }

/-! ## Subscription Lifecycle Job (bot.py `check_subscriptions_expiration`,
lines 451-467) -/

/-- State of one expiration run: the subscribers table, the user ids that
received the expiration notice, and the notification attempts made. -/
structure ExpireState where
  db : List Subscriber
  notified : List ℤ
  attempts : ℕ
deriving DecidableEq

/-- One iteration of the `for user_id, end_date_str in active_subscribers`
loop: when `now > end_date`, set the status to expired and attempt one
best-effort direct notification (its failure does not block the update). -/
def expiration_step (now : ℤ) (net : ℕ → Bool) (st : ExpireState) (p : ℤ × ℤ) :
    ExpireState :=
  if now > p.2 then
    let db2 := update_subscriber_status st.db p.1 expiredStr
    if net st.attempts then
      { db := db2, notified := st.notified ++ [p.1], attempts := st.attempts + 1 }
    else
      { db := db2, notified := st.notified, attempts := st.attempts + 1 }
  else st

/-- bot.py `check_subscriptions_expiration`: snapshot the active
subscribers, then expire every one whose end date is in the past. -/
def check_subscriptions_expiration (now : ℤ) (net : ℕ → Bool)
    (db : List Subscriber) : ExpireState :=
  (get_all_active_subscribers db).foldl (expiration_step now net)
    { db := db, notified := [], attempts := 0 }

/-! ## Daily Summary Job (bot.py `send_daily_summary`, lines 328-405) -/

/-- Mutable counters of the summary loop (bot.py lines 347-367). -/
structure SumAcc where
  greens : ℕ
  reds : ℕ
  pending_count : ℕ
  total_profit : ℚ
  total_staked : ℚ
deriving DecidableEq

/-- One iteration of the `for pred in predictions` loop. -/
def summary_step (acc : SumAcc) (r : HistRow) : SumAcc :=
  if r.result = greenStr then
    { greens := acc.greens + 1, reds := acc.reds, pending_count := acc.pending_count,
      total_profit := acc.total_profit + (r.suggested_odd - 1),
      total_staked := acc.total_staked + 1 }
  else if r.result = redStr then
    { greens := acc.greens, reds := acc.reds + 1, pending_count := acc.pending_count,
      total_profit := acc.total_profit - 1, total_staked := acc.total_staked + 1 }
  else
    { greens := acc.greens, reds := acc.reds, pending_count := acc.pending_count + 1,
      total_profit := acc.total_profit, total_staked := acc.total_staked }

/-- The daily report message, as the structured fields interpolated into
the message text (bot.py lines 382-393). -/
structure SummaryMsg where
  total : ℕ
  greens : ℕ
  reds : ℕ
  pending_count : ℕ
  total_profit : ℚ
  roi : ℚ
  green_pct : ℚ
  red_pct : ℚ
deriving DecidableEq

/-- Aggregation part of `send_daily_summary` (bot.py lines 346-377):
counters, then `roi = (total_profit / total_staked) * 100` when any bet
was resolved, else `0`, plus the green/red percentages over the resolved
count. -/
def summaryStats (predictions : List HistRow) : SummaryMsg :=
  let acc := predictions.foldl summary_step
    { greens := 0, reds := 0, pending_count := 0, total_profit := 0, total_staked := 0 }
  let resolved := acc.greens + acc.reds
  { total := predictions.length, greens := acc.greens, reds := acc.reds,
    pending_count := acc.pending_count, total_profit := acc.total_profit,
    roi := if acc.total_staked > 0 then acc.total_profit / acc.total_staked * 100 else 0,
    green_pct := if resolved > 0 then (acc.greens : ℚ) / (resolved : ℚ) * 100 else 0,
    red_pct := if resolved > 0 then (acc.reds : ℚ) / (resolved : ℚ) * 100 else 0 }

/-- bot.py `send_daily_summary`: warn-and-return when no channel id is
configured; return when no prediction was recorded today; otherwise build
the report and attempt one send (`net 0`), returning the delivered message
or `none` when the send raised. -/
def send_daily_summary (vip : Option ℤ) (db : List HistRow) (today : List Char)
    (net : ℕ → Bool) : Option SummaryMsg :=
  match vip with
  | none => none
  | some _ =>
    let predictions := get_daily_predictions_summary db today
    if predictions.isEmpty then none
    else if net 0 then some (summaryStats predictions) else none

/-! ## Derived observables and claim-side formulas -/

/-- The sublist of `preds` whose send attempt succeeds, attempts numbered
from `a` (the k-th element is sent as attempt `a + k`). -/
def deliveredOf (net : ℕ → Bool) : ℕ → List Prediction → List Prediction
  | _, [] => []
  | a, p :: ps =>
    if net a then p :: deliveredOf net (a + 1) ps else deliveredOf net (a + 1) ps

/-- The individual predictions actually delivered by one generation-job
run (the loop truncates the sorted list at `predictions_to_send` and the
run starts with attempt counter 0). -/
def delivered_predictions (env : DailyEnv) : List Prediction :=
  deliveredOf env.net 0 ((all_predictions env).take (predictions_to_send env))

/-- Project the individual-prediction messages out of a message list. -/
def individualsOf (msgs : List Message) : List Prediction :=
  msgs.filterMap fun m =>
    match m with
    | .individual p => some p
    | .multiple _ _ _ => none

def isMultipleMsg : Message → Bool
  | .individual _ => false
  | .multiple _ _ _ => true

/-- The multiple-message part of a generation run's delivered messages
(empty, or the one daily multiple when it was built and its send
succeeded). -/
def multiple_tail (env : DailyEnv) : List Message :=
  if env.fixtures.isEmpty then []
  else if 3 ≤ (all_predictions env).length then
    match build_daily_multiple_message (all_predictions env) with
    | some m => if env.net (send_loop_out env).attempts then [m] else []
    | none => []
  else []

/-- Claim-side formula (spec §4.5 and C9): the number of resolved (green
plus red) bets of a day's rows. -/
def spec_resolved_count (rows : List HistRow) : ℕ :=
  (rows.filter fun r => decide (r.result = greenStr)).length +
    (rows.filter fun r => decide (r.result = redStr)).length

/-- Claim-side formula (spec §4.5 and C9): the sum of per-bet
profit-or-loss, profit `odd − 1` for each green and `−1` for each red,
pending rows ignored. -/
def spec_profit_sum (rows : List HistRow) : ℚ :=
  (((rows.filter fun r => decide (r.result = greenStr)).map
      fun r => r.suggested_odd - 1).sum) -
    ((rows.filter fun r => decide (r.result = redStr)).length : ℚ)

/-! ## Concrete example data for witnesses and counterexamples -/

def exPredA : Prediction :=
  ⟨1, "c".toList, "a".toList, "b".toList, "t".toList, "x".toList, "p".toList,
    9 / 10, 2, "m".toList⟩

def exPredB : Prediction :=
  ⟨2, "c".toList, "a2".toList, "b2".toList, "t".toList, "x".toList, "p".toList,
    8 / 10, 3, "m".toList⟩

def exPredC : Prediction :=
  ⟨3, "c".toList, "a3".toList, "b3".toList, "t".toList, "x".toList, "p".toList,
    7 / 10, 2, "m".toList⟩

def exFixA : Fixture := ⟨71, leagueTypeLeague, some exPredA⟩
def exFixB : Fixture := ⟨71, leagueTypeLeague, some exPredB⟩
def exFixC : Fixture := ⟨71, leagueTypeLeague, some exPredC⟩

/-- C1 counterexample environment: channel configured, three candidates,
the first three send attempts (the individual messages) fail and the
fourth (the multiple) succeeds. -/
def exEnvC1cex : DailyEnv :=
  ⟨some 1, [exFixA, exFixB, exFixC], fun n => decide (3 ≤ n), "d".toList⟩

/-- C1 witness environment: channel configured, three candidates, fully
reliable transport. -/
def exEnvC1w : DailyEnv :=
  ⟨some 1, [exFixA, exFixB, exFixC], fun _ => true, "d".toList⟩

/-- C1 witness environment with only two candidates. -/
def exEnvC1w2 : DailyEnv :=
  ⟨some 1, [exFixA, exFixB], fun _ => true, "d".toList⟩

/-- C4 witness environment: two candidates, the first send succeeds and
the second fails. -/
def exEnvC4w : DailyEnv :=
  ⟨some 1, [exFixA, exFixB], fun n => decide (n = 0), "d".toList⟩

def exPredPrio : Prediction :=
  ⟨4, "c".toList, "a4".toList, "b4".toList, "t".toList, "x".toList, "p".toList,
    1 / 2, 2, "m".toList⟩

def exPredOther : Prediction :=
  ⟨5, "c".toList, "a5".toList, "b5".toList, "t".toList, "x".toList, "p".toList,
    1 / 2, 2, "m".toList⟩

/-- C7 witness: one priority-league fixture and one non-priority fixture,
their candidates tied in confidence. -/
def exEnvC7w : DailyEnv :=
  ⟨some 1, [⟨39, leagueTypeLeague, some exPredPrio⟩, ⟨999, leagueTypeLeague, some exPredOther⟩],
    fun _ => true, "d".toList⟩

/-- A finished fixture that ended 1-0. -/
def exFrFT10 : FixtureResult :=
  ⟨ftStr, some 1, some 0, "Casa".toList, "Fora".toList⟩

/-- C2/C3 store row: a pending prediction on fixture 5 reading "over 0.5". -/
def exRowPending : HistRow :=
  ⟨1, some 5, "c".toList, "a".toList, "b".toList, "t".toList, "x".toList,
    "over 0.5".toList, 1 / 2, 2, pendingStr, "2025-01-01 10:00:00".toList⟩

def exDbC2 : List HistRow := [exRowPending]

/-- Provider knowing only fixture 5, finished 1-0. -/
def exProvider5 (fid : ℕ) : Option FixtureResult :=
  if fid = 5 then some exFrFT10 else none

/-- C2 witness environment with no channel configured. -/
def exEnvC2w : DailyEnv := ⟨none, [exFixA], fun _ => true, "d".toList⟩

/-- C3: an already-resolved (green) row next to a pending row. -/
def exRowGreen : HistRow :=
  ⟨2, some 5, "c".toList, "a".toList, "b".toList, "t".toList, "x".toList,
    "over 0.5".toList, 1 / 2, 2, greenStr, "2025-01-01 09:00:00".toList⟩

def exDbC3 : List HistRow := [exRowGreen, exRowPending]

/-- C8: an active subscriber whose subscription ended at time 5. -/
def exSubA : Subscriber :=
  ⟨7, "u".toList, 0, 5, "m".toList, activeStr⟩

/-- C5 example outcomes. -/
def exFrGoals21 : FixtureResult := ⟨ftStr, some 2, some 1, "Casa".toList, "Fora".toList⟩
def exFrGoals11 : FixtureResult := ⟨ftStr, some 1, some 1, "Casa".toList, "Fora".toList⟩
def exFrGoals10 : FixtureResult := ⟨ftStr, some 1, some 0, "Casa".toList, "Fora".toList⟩

/-- C6 counterexample: a draw prediction naming both teams, final 1-1. -/
def exFrBoth : FixtureResult :=
  ⟨ftStr, some 1, some 1, "Gremio".toList, "Flamengo".toList⟩

def exTextBoth : List Char := "empate gremio flamengo".toList

/-- C6 witness: unparseable text, final 3-0. -/
def exFrC6w : FixtureResult :=
  ⟨ftStr, some 3, some 0, "Alpha".toList, "Beta".toList⟩

/-- C9: two green rows (odds 2.0 and 1.5) and one red row recorded on the
same day. -/
def exRowG1 : HistRow :=
  ⟨1, some 1, "c".toList, "a".toList, "b".toList, "t".toList, "x".toList,
    "p".toList, 1 / 2, 2, greenStr, "2025-01-01 10:00:00".toList⟩

def exRowG2 : HistRow :=
  ⟨2, some 2, "c".toList, "a".toList, "b".toList, "t".toList, "x".toList,
    "p".toList, 1 / 2, 3 / 2, greenStr, "2025-01-01 11:00:00".toList⟩

def exRowR3 : HistRow :=
  ⟨3, some 3, "c".toList, "a".toList, "b".toList, "t".toList, "x".toList,
    "p".toList, 1 / 2, 9 / 5, redStr, "2025-01-01 12:00:00".toList⟩

def exDbC9 : List HistRow := [exRowG1, exRowG2, exRowR3]

def exTodayC9 : List Char := "2025-01-01".toList

def exMsgC9 : SummaryMsg :=
  summaryStats (get_daily_predictions_summary exDbC9 exTodayC9)

/-! ## Theorems -/

/- Batteries marks the `ℚ` arithmetic operations `@[irreducible]`, which
blocks `decide`'s evaluation on concrete rationals; restore the default
transparency for this file so concrete runs of the model evaluate. -/
attribute [local semireducible] Rat.mul Rat.add Rat.sub Rat.inv

/-! ### Outcome Evaluator claims -/

/-- C5: for every prediction text in which the `over N` pattern matches
(the model's `searchOver` of the lowered, stripped text), `evaluate`
returns green iff `home_goals + away_goals > N` and red otherwise; and —
over taking precedence — when `over` does not match but `under N` does,
it returns green iff the total is `< N` and red otherwise.  Both rules
decide the verdict regardless of any other content of the text, i.e.
before every other rule. -/
theorem evaluate_over_under_rules (text : List Char) (fr : FixtureResult) (g : List Char) :
    (searchOver (normText text) = some g →
      evaluate_prediction text (some fr) =
        some (if ((fr.home_goals.getD 0 + fr.away_goals.getD 0 : ℕ) : ℚ) > parseDecimal g
          then Verdict.green else Verdict.red)) ∧
    (searchOver (normText text) = none → searchUnder (normText text) = some g →
      evaluate_prediction text (some fr) =
        some (if ((fr.home_goals.getD 0 + fr.away_goals.getD 0 : ℕ) : ℚ) < parseDecimal g
          then Verdict.green else Verdict.red)) := by
  constructor
  · intro h
    simp only [evaluate_prediction, evaluateCore, h]
  · intro h1 h2
    simp only [evaluate_prediction, evaluateCore, h1, h2]

/-- C5 witness: the claim's three examples, via `evaluate_over_under_rules`
at concrete inputs. -/
theorem evaluate_over_under_rules_witness :
    evaluate_prediction ("over 2.5".toList) (some exFrGoals21) = some Verdict.green ∧
    evaluate_prediction ("over 2.5".toList) (some exFrGoals11) = some Verdict.red ∧
    evaluate_prediction ("under 2.5".toList) (some exFrGoals10) = some Verdict.green := by
  refine ⟨?_, ?_, ?_⟩
  · rw [(evaluate_over_under_rules ("over 2.5".toList) exFrGoals21
      ('2' :: '.' :: '5' :: [])).1 (by decide)]
    decide
  · rw [(evaluate_over_under_rules ("over 2.5".toList) exFrGoals11
      ('2' :: '.' :: '5' :: [])).1 (by decide)]
    decide
  · rw [(evaluate_over_under_rules ("under 2.5".toList) exFrGoals10
      ('2' :: '.' :: '5' :: [])).2 (by decide) (by decide)]
    decide

/-- C6 counterexample: the text "empate gremio flamengo" ambiguously names
both teams (both mention predicates hold), yet on a 1-1 final score
`evaluate` returns green via the earlier draw rule — refuting "for every
prediction text … that ambiguously names both teams, and for every final
score, evaluate returns red". -/
theorem evaluate_ambiguous_teams_cex :
    mentionsTeam (pyLower exFrBoth.home_team) (normText exTextBoth) = true ∧
    mentionsTeam (pyLower exFrBoth.away_team) (normText exTextBoth) = true ∧
    evaluate_prediction exTextBoth (some exFrBoth) = some Verdict.green := by
  decide

/-- C6 (amended): when no over/under pattern matches, no both-teams-score
keyword and no draw keyword occurs, and the text mentions both teams or
neither (the ambiguous and the no-match cases), `evaluate` returns red. -/
theorem evaluate_fallback_red (text : List Char) (fr : FixtureResult)
    (h1 : searchOver (normText text) = none)
    (h2 : searchUnder (normText text) = none)
    (h3 : bttsKw (normText text) = false)
    (h4 : drawKw (normText text) = false)
    (h5 : mentionsTeam (pyLower fr.home_team) (normText text) =
      mentionsTeam (pyLower fr.away_team) (normText text)) :
    evaluate_prediction text (some fr) = some Verdict.red := by
  cases ha : mentionsTeam (pyLower fr.away_team) (normText text) with
  | true => simp [evaluate_prediction, evaluateCore, h1, h2, h3, h4, h5, ha]
  | false => simp [evaluate_prediction, evaluateCore, h1, h2, h3, h4, h5, ha]

/-- C6 witness: the claim's example — the unparseable text "xyzzy" on a
3-0 final evaluates to red, via `evaluate_fallback_red`. -/
theorem evaluate_fallback_red_witness :
    evaluate_prediction ("xyzzy".toList) (some exFrC6w) = some Verdict.red :=
  evaluate_fallback_red ("xyzzy".toList) exFrC6w (by decide) (by decide)
    (by decide) (by decide) (by decide)

/-! ### Helper lemmas for the Prediction Generation Job -/

lemma mem_insertByConfidence {z x : Prediction} {l : List Prediction} :
    z ∈ insertByConfidence x l ↔ z = x ∨ z ∈ l := by
  induction l with
  | nil => simp [insertByConfidence]
  | cons y ys ih =>
    by_cases h : y.confidence ≤ x.confidence <;>
      (simp [insertByConfidence, h, ih]; try tauto)

lemma pairwise_insertByConfidence {x : Prediction} {l : List Prediction}
    (h : l.Pairwise fun a b => b.confidence ≤ a.confidence) :
    (insertByConfidence x l).Pairwise fun a b => b.confidence ≤ a.confidence := by
  induction l with
  | nil => simp [insertByConfidence]
  | cons y ys ih =>
    rcases List.pairwise_cons.mp h with ⟨hy, hys⟩
    by_cases hle : y.confidence ≤ x.confidence
    · simp only [insertByConfidence, if_pos hle]
      refine List.pairwise_cons.mpr ⟨?_, h⟩
      intro z hz
      rcases List.mem_cons.mp hz with rfl | hz'
      · exact hle
      · exact le_trans (hy z hz') hle
    · simp only [insertByConfidence, if_neg hle]
      refine List.pairwise_cons.mpr ⟨?_, ih hys⟩
      intro z hz
      rcases mem_insertByConfidence.mp hz with rfl | hz'
      · exact (not_le.mp hle).le
      · exact hy z hz'

lemma sort_by_confidence_pairwise (l : List Prediction) :
    (sort_by_confidence l).Pairwise fun a b => b.confidence ≤ a.confidence := by
  induction l with
  | nil => simp [sort_by_confidence]
  | cons x xs ih => exact pairwise_insertByConfidence ih

lemma filter_confidence_insertByConfidence (c : ℚ) (x : Prediction)
    (l : List Prediction) :
    (insertByConfidence x l).filter (fun p => decide (p.confidence = c)) =
      if x.confidence = c then x :: l.filter (fun p => decide (p.confidence = c))
      else l.filter (fun p => decide (p.confidence = c)) := by
  induction l with
  | nil => by_cases h : x.confidence = c <;> simp [insertByConfidence, h]
  | cons y ys ih =>
    by_cases hle : y.confidence ≤ x.confidence
    · simp only [insertByConfidence, if_pos hle]
      by_cases hx : x.confidence = c <;> by_cases hy : y.confidence = c <;>
        simp [List.filter_cons, hx, hy]
    · simp only [insertByConfidence, if_neg hle]
      by_cases hx : x.confidence = c
      · have hy : ¬ y.confidence = c := by
          intro hyc
          exact hle (by rw [hyc, hx])
        simp [List.filter_cons, hy, ih, hx]
      · by_cases hy : y.confidence = c <;>
          simp [List.filter_cons, hy, ih, hx]

/-- Stability of the confidence sort: for every confidence value, the
subsequence of elements with that confidence is unchanged — i.e. ties keep
their original relative order. -/
lemma sort_by_confidence_filter_stable (c : ℚ) (l : List Prediction) :
    (sort_by_confidence l).filter (fun p => decide (p.confidence = c)) =
      l.filter (fun p => decide (p.confidence = c)) := by
  induction l with
  | nil => rfl
  | cons x xs ih =>
    by_cases hx : x.confidence = c <;>
      simp [sort_by_confidence, filter_confidence_insertByConfidence, hx, ih,
        List.filter_cons]

lemma deliveredOf_sublist (net : ℕ → Bool) (a : ℕ) (l : List Prediction) :
    List.Sublist (deliveredOf net a l) l := by
  induction l generalizing a with
  | nil => simp [deliveredOf]
  | cons p ps ih =>
    by_cases h : net a
    · simpa [deliveredOf, h] using List.Sublist.cons₂ p (ih (a + 1))
    · simpa [deliveredOf, h] using List.Sublist.cons p (ih (a + 1))

/-- Closed form of the individual-send loop: the run appends one message
and one store row per successful attempt, counts them, and makes one
attempt per processed prediction. -/
lemma send_predictions_loop_spec (net : ℕ → Bool) (now : List Char)
    (l : List Prediction) (st : SendLoopState) :
    send_predictions_loop net now l st =
      { messages := st.messages ++ (deliveredOf net st.attempts l).map Message.individual,
        history := st.history ++
          (deliveredOf net st.attempts l).map (fun p => add_prediction_history p now),
        sent_count := st.sent_count + (deliveredOf net st.attempts l).length,
        attempts := st.attempts + l.length } := by
  induction l generalizing st with
  | nil => simp [send_predictions_loop, deliveredOf]
  | cons p ps ih =>
    by_cases h : net st.attempts <;>
      simp [send_predictions_loop, h, ih, deliveredOf, List.append_assoc] <;>
      omega

lemma individualsOf_append (a b : List Message) :
    individualsOf (a ++ b) = individualsOf a ++ individualsOf b := by
  simp [individualsOf]

lemma individualsOf_map_individual (l : List Prediction) :
    individualsOf (l.map Message.individual) = l := by
  induction l with
  | nil => rfl
  | cons p ps ih => simp [individualsOf] at ih ⊢; exact ih

lemma filter_isMultipleMsg_map_individual (l : List Prediction) :
    (l.map Message.individual).filter isMultipleMsg = [] := by
  induction l with
  | nil => rfl
  | cons p ps ih => simp [isMultipleMsg, ih]

/-- `build_daily_multiple_message` either yields nothing or the top-3
multiple. -/
lemma build_daily_multiple_message_eq (l : List Prediction) :
    build_daily_multiple_message l = none ∨
    build_daily_multiple_message l =
      some (Message.multiple (l.take 3)
        ((l.take 3).foldl (fun acc p => acc * p.suggested_odd) 1) 1) := by
  unfold build_daily_multiple_message
  split <;> simp

lemma build_daily_multiple_message_none_iff (l : List Prediction) :
    build_daily_multiple_message l = none ↔ l.length < 3 := by
  unfold build_daily_multiple_message
  split <;> simp_all

lemma all_predictions_nil {env : DailyEnv} (h : env.fixtures = []) :
    all_predictions env = [] := by
  simp [all_predictions, collected_candidates, sorted_fixtures, priority_fixtures,
    other_fixtures, football_fixtures, h, collectCandidates, sort_by_confidence]

lemma individualsOf_multiple_tail (env : DailyEnv) :
    individualsOf (multiple_tail env) = [] := by
  unfold multiple_tail
  rcases build_daily_multiple_message_eq (all_predictions env) with hb | hb <;>
    repeat' split <;> simp_all [individualsOf]

lemma delivered_predictions_nil {env : DailyEnv} (h : env.fixtures = []) :
    delivered_predictions env = [] := by
  simp [delivered_predictions, all_predictions_nil h, deliveredOf]

/-- Closed form of one generation-job run on a configured channel. -/
lemma send_daily_spec (env : DailyEnv) (ch : ℤ) (hch : env.vip = some ch) :
    send_daily_predictions env =
      { messages := (delivered_predictions env).map Message.individual ++ multiple_tail env,
        history := (delivered_predictions env).map (fun p => add_prediction_history p env.now),
        sent_count := (delivered_predictions env).length } := by
  have hloop := send_predictions_loop_spec env.net env.now
    ((all_predictions env).take (predictions_to_send env))
    { messages := [], history := [], sent_count := 0, attempts := 0 }
  have hout : send_loop_out env =
      { messages := (delivered_predictions env).map Message.individual,
        history := (delivered_predictions env).map (fun p => add_prediction_history p env.now),
        sent_count := (delivered_predictions env).length,
        attempts := ((all_predictions env).take (predictions_to_send env)).length } := by
    unfold send_loop_out delivered_predictions
    simpa using hloop
  simp only [send_daily_predictions, hch]
  by_cases hfe : env.fixtures.isEmpty
  · have hnil : env.fixtures = [] := List.isEmpty_iff.mp hfe
    have hmt : multiple_tail env = [] := by
      unfold multiple_tail
      rw [if_pos hfe]
    rw [if_pos hfe, hmt, delivered_predictions_nil hnil]
    rfl
  · rw [if_neg hfe]
    by_cases hlen : 3 ≤ (all_predictions env).length
    · rw [if_pos hlen]
      rcases build_daily_multiple_message_eq (all_predictions env) with hb | hb
      · rw [build_daily_multiple_message_none_iff] at hb
        omega
      · simp only [hb]
        by_cases hnet : env.net (send_loop_out env).attempts
        · have hmt : multiple_tail env =
              [Message.multiple ((all_predictions env).take 3)
                (((all_predictions env).take 3).foldl (fun acc p => acc * p.suggested_odd) 1) 1] := by
            unfold multiple_tail
            rw [if_neg hfe, if_pos hlen]
            simp only [hb]
            rw [if_pos hnet]
          rw [if_pos hnet, hmt, hout]
        · have hmt : multiple_tail env = [] := by
            unfold multiple_tail
            rw [if_neg hfe, if_pos hlen]
            simp only [hb]
            rw [if_neg hnet]
          rw [if_neg hnet, hmt, hout]
          simp
    · rw [if_neg hlen]
      have hmt : multiple_tail env = [] := by
        unfold multiple_tail
        rw [if_neg hfe, if_neg hlen]
      rw [hmt, hout]
      simp

/-- Individual predictions delivered by a configured run, read off the
message list. -/
lemma send_daily_individuals (env : DailyEnv) (ch : ℤ) (hch : env.vip = some ch) :
    individualsOf (send_daily_predictions env).messages = delivered_predictions env := by
  rw [send_daily_spec env ch hch]
  simp [individualsOf_append, individualsOf_map_individual, individualsOf_multiple_tail]

/-! ### Prediction Generation Job claims -/

/-- C4: on a configured channel, the history rows persisted by one
generation-job run are exactly the rows of the predictions whose send
succeeded, in order — a candidate whose send raises an error contributes
no history row — and they match the delivered individual messages
one-for-one. -/
theorem history_persisted_only_after_send (env : DailyEnv) (ch : ℤ)
    (hch : env.vip = some ch) :
    (send_daily_predictions env).history =
      (delivered_predictions env).map (fun p => add_prediction_history p env.now) ∧
    individualsOf (send_daily_predictions env).messages = delivered_predictions env := by
  refine ⟨?_, send_daily_individuals env ch hch⟩
  rw [send_daily_spec env ch hch]

/-- C4 witness: with two candidates where the first send succeeds and the
second raises, only the first candidate's row is persisted. -/
theorem history_persisted_only_after_send_witness :
    (send_daily_predictions exEnvC4w).history =
      (delivered_predictions exEnvC4w).map (fun p => add_prediction_history p exEnvC4w.now) ∧
    delivered_predictions exEnvC4w = [exPredA] := by
  refine ⟨(history_persisted_only_after_send exEnvC4w 1 rfl).1, by decide⟩

/-- C7: the individual predictions sent by a configured run are in
non-increasing confidence order; for every confidence value, the sent
predictions with that confidence form a subsequence of the
discovery-ordered candidate list (ties keep fixture-discovery order); and
the discovery order processes every priority-tier fixture before every
non-priority fixture. -/
theorem sent_order_ranking_stability (env : DailyEnv) (ch : ℤ)
    (hch : env.vip = some ch) :
    ((individualsOf (send_daily_predictions env).messages).Pairwise
      fun a b => b.confidence ≤ a.confidence) ∧
    (∀ c : ℚ, List.Sublist
      ((individualsOf (send_daily_predictions env).messages).filter
        (fun p => decide (p.confidence = c)))
      ((collected_candidates env).filter (fun p => decide (p.confidence = c)))) ∧
    sorted_fixtures env = priority_fixtures env ++ other_fixtures env ∧
    (∀ f ∈ priority_fixtures env, isPriorityLeague f.league_id = true) ∧
    (∀ f ∈ other_fixtures env, isPriorityLeague f.league_id = false) := by
  rw [send_daily_individuals env ch hch]
  have hsub : List.Sublist (delivered_predictions env) (all_predictions env) :=
    (deliveredOf_sublist env.net 0 _).trans (List.take_sublist _ _)
  refine ⟨?_, ?_, rfl, ?_, ?_⟩
  · exact List.Pairwise.sublist hsub (sort_by_confidence_pairwise _)
  · intro c
    have h1 := List.Sublist.filter (fun p => decide (p.confidence = c)) hsub
    simpa [all_predictions, sort_by_confidence_filter_stable] using h1
  · intro f hf
    have hf' : f ∈ (football_fixtures env).filter (fun f => isPriorityLeague f.league_id) := hf
    exact (List.mem_filter.mp hf').2
  · intro f hf
    have hf' : f ∈ (football_fixtures env).filter (fun f => !isPriorityLeague f.league_id) := hf
    simpa using (List.mem_filter.mp hf').2

/-- C7 witness: a priority-league candidate and a non-priority candidate
tied in confidence are sent in discovery order, priority first. -/
theorem sent_order_ranking_stability_witness :
    ((individualsOf (send_daily_predictions exEnvC7w).messages).Pairwise
      fun a b => b.confidence ≤ a.confidence) ∧
    individualsOf (send_daily_predictions exEnvC7w).messages = [exPredPrio, exPredOther] := by
  refine ⟨(sent_order_ranking_stability exEnvC7w 1 rfl).1, by decide⟩

/-- C1 counterexample: in `exEnvC1cex` every individual send fails
(`sent_count = 0`, fewer than 3 distributed) and yet the daily multiple is
built and delivered — refuting "with fewer than 3 distributed predictions
no multiple message is sent". -/
theorem daily_multiple_sent_without_distribution_cex :
    (send_daily_predictions exEnvC1cex).sent_count = 0 ∧
    (send_daily_predictions exEnvC1cex).messages =
      [Message.multiple [exPredA, exPredB, exPredC] 12 1] := by
  decide

/-- C1 (amended): the multiple is gated on the number of *generated*
candidates, not the number distributed: on a configured channel, whenever
at least 3 candidates exist (`(all_predictions env).take 3 = [p1, p2, p3]`)
and the multiple's own send succeeds, exactly one multiple message is
delivered, built from the top 3 by confidence with combined odd the
product of their three suggested odds and a 1% stake suggestion; with
fewer than 3 candidates no multiple is ever sent. -/
theorem daily_multiple_trigger_and_product (env : DailyEnv) (ch : ℤ)
    (hch : env.vip = some ch) :
    (∀ p1 p2 p3 : Prediction, (all_predictions env).take 3 = [p1, p2, p3] →
      env.net (send_loop_out env).attempts = true →
      (send_daily_predictions env).messages.filter isMultipleMsg =
        [Message.multiple [p1, p2, p3]
          (p1.suggested_odd * p2.suggested_odd * p3.suggested_odd) 1]) ∧
    ((all_predictions env).length < 3 →
      (send_daily_predictions env).messages.filter isMultipleMsg = []) := by
  have hfilter : ∀ tail : List Message,
      (((delivered_predictions env).map Message.individual ++ tail).filter isMultipleMsg) =
        tail.filter isMultipleMsg := by
    intro tail
    rw [List.filter_append, filter_isMultipleMsg_map_individual]
    simp
  constructor
  · intro p1 p2 p3 htake hnet
    have hlen : 3 ≤ (all_predictions env).length := by
      have h3 := congrArg List.length htake
      simp [List.length_take] at h3
      omega
    have hne : ¬ env.fixtures.isEmpty := by
      intro hfe
      rw [all_predictions_nil (List.isEmpty_iff.mp hfe)] at hlen
      simp at hlen
    rw [send_daily_spec env ch hch, hfilter]
    rcases build_daily_multiple_message_eq (all_predictions env) with hb | hb
    · rw [build_daily_multiple_message_none_iff] at hb
      omega
    · have hmt : multiple_tail env =
          [Message.multiple ((all_predictions env).take 3)
            (((all_predictions env).take 3).foldl (fun acc p => acc * p.suggested_odd) 1) 1] := by
        unfold multiple_tail
        rw [if_neg hne, if_pos hlen]
        simp only [hb]
        rw [if_pos hnet]
      rw [hmt, htake]
      simp [isMultipleMsg, List.filter_cons, one_mul]
  · intro hlen
    rw [send_daily_spec env ch hch, hfilter]
    unfold multiple_tail
    by_cases hfe : env.fixtures.isEmpty
    · simp [hfe]
    · rw [if_neg hfe, if_neg (by omega)]
      rfl

/-- C1 witness: with three candidates and reliable transport exactly one
multiple with the product odd is delivered; with two candidates none is. -/
theorem daily_multiple_trigger_and_product_witness :
    (send_daily_predictions exEnvC1w).messages.filter isMultipleMsg =
      [Message.multiple [exPredA, exPredB, exPredC]
        (exPredA.suggested_odd * exPredB.suggested_odd * exPredC.suggested_odd) 1] ∧
    (send_daily_predictions exEnvC1w2).messages.filter isMultipleMsg = [] := by
  constructor
  · exact (daily_multiple_trigger_and_product exEnvC1w 1 rfl).1 exPredA exPredB exPredC
      (by decide) (by decide)
  · exact (daily_multiple_trigger_and_product exEnvC1w2 1 rfl).2 (by decide)

/-! ### Helper lemmas for the Result Reconciliation Job -/

lemma update_prediction_result_get? (db : List HistRow) (pid : ℕ) (v : List Char)
    (i : ℕ) :
    (update_prediction_result db pid v)[i]? =
      (db[i]?).map (fun r => if r.id = pid then { r with result := v } else r) := by
  simp [update_prediction_result, List.getElem?_map]

lemma check_results_step_preserves (vip : Option ℤ) (provider : ℕ → Option FixtureResult)
    (net : ℕ → Bool) (st : CheckState) (p : HistRow) (i : ℕ) (r : HistRow)
    (hid : p.id ≠ r.id) (h : st.db[i]? = some r) :
    (check_results_step vip provider net st p).db[i]? = some r := by
  have hupd : ∀ v, (update_prediction_result st.db p.id v)[i]? = some r := by
    intro v
    simp [update_prediction_result_get?, h, Ne.symm hid]
  unfold check_results_step
  repeat' split
  all_goals first | exact h | simp [h, hupd]

lemma check_results_loop_preserves (vip : Option ℤ) (provider : ℕ → Option FixtureResult)
    (net : ℕ → Bool) (ps : List HistRow) (i : ℕ) (r : HistRow)
    (hid : ∀ p ∈ ps, p.id ≠ r.id) :
    ∀ st : CheckState, st.db[i]? = some r →
      (ps.foldl (check_results_step vip provider net) st).db[i]? = some r := by
  induction ps with
  | nil => intro st h; exact h
  | cons p ps ih =>
    intro st h
    rw [List.foldl_cons]
    exact ih (fun q hq => hid q (List.mem_cons_of_mem _ hq)) _
      (check_results_step_preserves vip provider net st p i r
        (hid p (List.mem_cons_self _ _)) h)

lemma check_results_step_notifs_none (provider : ℕ → Option FixtureResult)
    (net : ℕ → Bool) (st : CheckState) (p : HistRow) :
    (check_results_step none provider net st p).notifs = st.notifs := by
  unfold check_results_step
  repeat' split
  all_goals first | rfl | simp_all

lemma check_results_loop_notifs_none (provider : ℕ → Option FixtureResult)
    (net : ℕ → Bool) (ps : List HistRow) :
    ∀ st : CheckState,
      (ps.foldl (check_results_step none provider net) st).notifs = st.notifs := by
  induction ps with
  | nil => intro st; rfl
  | cons p ps ih =>
    intro st
    rw [List.foldl_cons, ih, check_results_step_notifs_none]

/-! ### Result Reconciliation Job claims -/

/-- C3: a prediction record already resolved green or red is untouched by
any reconciliation run — the job only selects and updates records whose
result is 'pending', so a result transitions at most once (store ids are
unique, the table's primary-key invariant). -/
theorem resolved_predictions_never_reprocessed (vip : Option ℤ)
    (provider : ℕ → Option FixtureResult) (net : ℕ → Bool) (db : List HistRow)
    (hnodup : (db.map HistRow.id).Nodup) (i : ℕ) (r : HistRow)
    (hget : db[i]? = some r)
    (hres : r.result = greenStr ∨ r.result = redStr) :
    (check_results vip provider net db).db[i]? = some r := by
  have hrdb : r ∈ db := List.getElem?_mem hget
  have hrnp : r.result ≠ pendingStr := by
    rcases hres with h | h <;> rw [h] <;> decide
  have hid : ∀ p ∈ get_pending_predictions db, p.id ≠ r.id := by
    intro p hp hpr
    have hpdb : p ∈ db := List.mem_of_mem_filter hp
    have hppend : p.result = pendingStr := by
      simpa using (List.mem_filter.mp hp).2
    have hpr' : p = r := List.inj_on_of_nodup_map hnodup hpdb hrdb hpr
    rw [hpr'] at hppend
    exact hrnp hppend
  simp only [check_results]
  by_cases hpe : (get_pending_predictions db).isEmpty
  · rw [if_pos hpe]
    exact hget
  · rw [if_neg hpe]
    exact check_results_loop_preserves vip provider net _ i r hid _ hget

/-- C3 witness: running reconciliation over a store holding a green row
and a pending row leaves the green row exactly as it was (while the
pending row does get resolved). -/
theorem resolved_predictions_never_reprocessed_witness :
    (check_results (some 1) exProvider5 (fun _ => true) exDbC3).db[0]? =
      some exRowGreen ∧
    (check_results (some 1) exProvider5 (fun _ => true) exDbC3).db[1]? =
      some { exRowPending with result := greenStr } := by
  constructor
  · exact resolved_predictions_never_reprocessed (some 1) exProvider5 (fun _ => true)
      exDbC3 (by decide) 0 exRowGreen (by decide) (Or.inl rfl)
  · decide

/-- C2 counterexample: with no channel configured, `check_results` still
resolves the pending prediction and writes 'green' to the store (only the
notification is skipped) — refuting "the job … exits without any side
effects: no rows are written to the store". -/
theorem check_results_missing_channel_writes_store_cex :
    (check_results none exProvider5 (fun _ => false) exDbC2).db ≠ exDbC2 ∧
    (check_results none exProvider5 (fun _ => false) exDbC2).db[0]? =
      some { exRowPending with result := greenStr } ∧
    (check_results none exProvider5 (fun _ => false) exDbC2).notifs = [] := by
  decide

/-- C2 (amended): with the channel setting missing, the prediction
generation job and the daily summary job exit with no side effects, and
the reconciliation job sends no channel notifications — but, as the
counterexample shows, reconciliation still evaluates pending predictions
and writes their results to the store. -/
theorem missing_channel_behavior :
    (∀ env : DailyEnv, env.vip = none →
      send_daily_predictions env = { messages := [], history := [], sent_count := 0 }) ∧
    (∀ (db : List HistRow) (today : List Char) (net : ℕ → Bool),
      send_daily_summary none db today net = none) ∧
    (∀ (provider : ℕ → Option FixtureResult) (net : ℕ → Bool) (db : List HistRow),
      (check_results none provider net db).notifs = []) := by
  refine ⟨?_, ?_, ?_⟩
  · intro env h
    simp [send_daily_predictions, h]
  · intro db today net
    rfl
  · intro provider net db
    simp only [check_results]
    by_cases hpe : (get_pending_predictions db).isEmpty
    · rw [if_pos hpe]
    · rw [if_neg hpe]
      rw [check_results_loop_notifs_none]

/-- C2 witness: the three no-channel behaviours at concrete inputs. -/
theorem missing_channel_behavior_witness :
    send_daily_predictions exEnvC2w = { messages := [], history := [], sent_count := 0 } ∧
    send_daily_summary none exDbC2 exTodayC9 (fun _ => true) = none ∧
    (check_results none exProvider5 (fun _ => true) exDbC2).notifs = [] :=
  ⟨missing_channel_behavior.1 exEnvC2w rfl,
    missing_channel_behavior.2.1 exDbC2 exTodayC9 (fun _ => true),
    missing_channel_behavior.2.2 exProvider5 (fun _ => true) exDbC2⟩

/-! ### Helper lemmas for the Subscription Lifecycle Job -/

lemma update_subscriber_status_get? (db : List Subscriber) (uid : ℤ) (s : List Char)
    (i : ℕ) :
    (update_subscriber_status db uid s)[i]? =
      (db[i]?).map (fun x => if x.user_id = uid then { x with status := s } else x) := by
  simp [update_subscriber_status, List.getElem?_map]

lemma expiration_step_preserves (now : ℤ) (net : ℕ → Bool) (st : ExpireState)
    (p : ℤ × ℤ) (i : ℕ) (r : Subscriber)
    (hid : p.1 ≠ r.user_id) (hdb : st.db[i]? = some r)
    (hn : r.user_id ∉ st.notified) :
    (expiration_step now net st p).db[i]? = some r ∧
      r.user_id ∉ (expiration_step now net st p).notified := by
  unfold expiration_step
  by_cases hexp : now > p.2
  · rw [if_pos hexp]
    have hupd : (update_subscriber_status st.db p.1 expiredStr)[i]? = some r := by
      simp [update_subscriber_status_get?, hdb, Ne.symm hid]
    by_cases hnet : net st.attempts
    · rw [if_pos hnet]
      refine ⟨hupd, ?_⟩
      intro hmem
      rcases List.mem_append.mp hmem with hmem | hmem
      · exact hn hmem
      · simp at hmem
        exact hid hmem.symm
    · rw [if_neg hnet]
      exact ⟨hupd, hn⟩
  · rw [if_neg hexp]
    exact ⟨hdb, hn⟩

lemma expiration_loop_preserves (now : ℤ) (net : ℕ → Bool) (ps : List (ℤ × ℤ))
    (i : ℕ) (r : Subscriber) (hid : ∀ q ∈ ps, q.1 ≠ r.user_id) :
    ∀ st : ExpireState, st.db[i]? = some r → r.user_id ∉ st.notified →
      ((ps.foldl (expiration_step now net) st).db[i]? = some r ∧
        r.user_id ∉ (ps.foldl (expiration_step now net) st).notified) := by
  induction ps with
  | nil => intro st h hn; exact ⟨h, hn⟩
  | cons q qs ih =>
    intro st h hn
    rw [List.foldl_cons]
    have hstep := expiration_step_preserves now net st q i r
      (hid q (List.mem_cons_self _ _)) h hn
    exact ih (fun x hx => hid x (List.mem_cons_of_mem _ hx)) _ hstep.1 hstep.2

lemma update_subscriber_status_ids (db : List Subscriber) (uid : ℤ) (s : List Char) :
    (update_subscriber_status db uid s).map Subscriber.user_id =
      db.map Subscriber.user_id := by
  induction db with
  | nil => rfl
  | cons x xs ih =>
    simp only [update_subscriber_status, List.map_cons] at ih ⊢
    by_cases h : x.user_id = uid <;> simp [h, ih]

lemma expiration_step_ids (now : ℤ) (net : ℕ → Bool) (st : ExpireState) (p : ℤ × ℤ) :
    (expiration_step now net st p).db.map Subscriber.user_id =
      st.db.map Subscriber.user_id := by
  unfold expiration_step
  repeat' split <;> simp [update_subscriber_status_ids]

lemma expiration_loop_ids (now : ℤ) (net : ℕ → Bool) (ps : List (ℤ × ℤ)) :
    ∀ st : ExpireState,
      ((ps.foldl (expiration_step now net) st).db.map Subscriber.user_id) =
        st.db.map Subscriber.user_id := by
  induction ps with
  | nil => intro st; rfl
  | cons q qs ih =>
    intro st
    rw [List.foldl_cons, ih, expiration_step_ids]

lemma check_subscriptions_expiration_ids (now : ℤ) (net : ℕ → Bool)
    (db : List Subscriber) :
    ((check_subscriptions_expiration now net db).db.map Subscriber.user_id) =
      db.map Subscriber.user_id := by
  unfold check_subscriptions_expiration
  rw [expiration_loop_ids]

lemma expiration_preserves_inactive (now : ℤ) (net : ℕ → Bool) (db : List Subscriber)
    (i : ℕ) (r : Subscriber) (hnodup : (db.map Subscriber.user_id).Nodup)
    (hget : db[i]? = some r) (hr : r.status ≠ activeStr) :
    (check_subscriptions_expiration now net db).db[i]? = some r ∧
      r.user_id ∉ (check_subscriptions_expiration now net db).notified := by
  have hrdb : r ∈ db := List.getElem?_mem hget
  have hid : ∀ q ∈ get_all_active_subscribers db, q.1 ≠ r.user_id := by
    intro q hq hqr
    rcases List.mem_map.mp hq with ⟨s, hs, hsq⟩
    have hsdb : s ∈ db := List.mem_of_mem_filter hs
    have hsact : s.status = activeStr := by
      simpa using (List.mem_filter.mp hs).2
    have hsu : s.user_id = q.1 := by rw [← hsq]
    have hsr : s = r := List.inj_on_of_nodup_map hnodup hsdb hrdb (by rw [hsu, hqr])
    rw [hsr] at hsact
    exact hr hsact
  unfold check_subscriptions_expiration
  exact expiration_loop_preserves now net _ i r hid _ hget (by simp)

/-! ### Subscription Lifecycle Job claims -/

/-- C8: the expiration check is idempotent — a subscriber marked expired
by a first run is untouched by a second run and receives no notification
from it, because the check only acts on subscribers whose status is
'active' (user ids are unique, the table's primary-key invariant). -/
theorem subscription_expiration_idempotent (db : List Subscriber) (now now' : ℤ)
    (net net' : ℕ → Bool) (hnodup : (db.map Subscriber.user_id).Nodup)
    (i : ℕ) (r : Subscriber)
    (hget : (check_subscriptions_expiration now net db).db[i]? = some r)
    (hr : r.status = expiredStr) :
    (check_subscriptions_expiration now' net'
        (check_subscriptions_expiration now net db).db).db[i]? = some r ∧
      r.user_id ∉ (check_subscriptions_expiration now' net'
        (check_subscriptions_expiration now net db).db).notified := by
  have hnodup' :
      (((check_subscriptions_expiration now net db).db).map Subscriber.user_id).Nodup := by
    rw [check_subscriptions_expiration_ids]
    exact hnodup
  exact expiration_preserves_inactive now' net' _ i r hnodup' hget (by rw [hr]; decide)

/-- C8 witness: one active subscriber past their end date is expired and
notified by the first run; the second run changes nothing and does not
notify them again. -/
theorem subscription_expiration_idempotent_witness :
    (check_subscriptions_expiration 10 (fun _ => true) [exSubA]).notified = [(7:ℤ)] ∧
    (check_subscriptions_expiration 11 (fun _ => true)
        (check_subscriptions_expiration 10 (fun _ => true) [exSubA]).db).db[0]? =
      some { exSubA with status := expiredStr } ∧
    (7:ℤ) ∉ (check_subscriptions_expiration 11 (fun _ => true)
        (check_subscriptions_expiration 10 (fun _ => true) [exSubA]).db).notified := by
  refine ⟨by decide, ?_, ?_⟩
  · exact (subscription_expiration_idempotent [exSubA] 10 11 (fun _ => true)
      (fun _ => true) (by decide) 0 { exSubA with status := expiredStr }
      (by decide) rfl).1
  · exact (subscription_expiration_idempotent [exSubA] 10 11 (fun _ => true)
      (fun _ => true) (by decide) 0 { exSubA with status := expiredStr }
      (by decide) rfl).2

/-! ### Helper lemmas for the Daily Summary Job -/

lemma summary_foldl_profit (rows : List HistRow) :
    ∀ acc : SumAcc, (rows.foldl summary_step acc).total_profit =
      acc.total_profit + spec_profit_sum rows := by
  induction rows with
  | nil =>
    intro acc
    simp [spec_profit_sum]
  | cons r rs ih =>
    intro acc
    rw [List.foldl_cons, ih]
    have hne1 : greenStr ≠ redStr := by decide
    have hne2 : redStr ≠ greenStr := by decide
    by_cases hg : r.result = greenStr
    · have hrd : ¬ r.result = redStr := by rw [hg]; exact hne1
      simp [summary_step, hg, hrd, spec_profit_sum, List.filter_cons, hne1, hne2]
      ring
    · by_cases hrd : r.result = redStr
      · simp [summary_step, hg, hrd, spec_profit_sum, List.filter_cons, hne1, hne2]
        ring
      · simp [summary_step, hg, hrd, spec_profit_sum, List.filter_cons]

lemma summary_foldl_staked (rows : List HistRow) :
    ∀ acc : SumAcc, (rows.foldl summary_step acc).total_staked =
      acc.total_staked + (spec_resolved_count rows : ℚ) := by
  induction rows with
  | nil =>
    intro acc
    simp [spec_resolved_count]
  | cons r rs ih =>
    intro acc
    rw [List.foldl_cons, ih]
    have hne1 : greenStr ≠ redStr := by decide
    have hne2 : redStr ≠ greenStr := by decide
    by_cases hg : r.result = greenStr
    · have hrd : ¬ r.result = redStr := by rw [hg]; exact hne1
      simp [summary_step, hg, hrd, spec_resolved_count, List.filter_cons, hne1, hne2]
      ring
    · by_cases hrd : r.result = redStr
      · simp [summary_step, hg, hrd, spec_resolved_count, List.filter_cons, hne1, hne2]
        ring
      · simp [summary_step, hg, hrd, spec_resolved_count, List.filter_cons]

lemma summaryStats_roi (rows : List HistRow)
    (hres : 0 < spec_resolved_count rows) :
    (summaryStats rows).roi =
      spec_profit_sum rows / (spec_resolved_count rows : ℚ) * 100 := by
  have hp := summary_foldl_profit rows
    { greens := 0, reds := 0, pending_count := 0, total_profit := 0, total_staked := 0 }
  have hs := summary_foldl_staked rows
    { greens := 0, reds := 0, pending_count := 0, total_profit := 0, total_staked := 0 }
  simp only [summaryStats]
  rw [hp, hs]
  have hpos : (0 : ℚ) < (0 : ℚ) + (spec_resolved_count rows : ℚ) := by
    rw [zero_add]
    exact_mod_cast hres
  rw [if_pos hpos]
  rw [zero_add, zero_add]

/-! ### Daily Summary Job claims -/

/-- C9: the ROI in the daily summary report equals the sum of per-bet
profit-or-loss (odd − 1 per green, −1 per red, pending ignored) divided by
the count of resolved bets, times 100. -/
theorem daily_summary_roi_formula (vip : Option ℤ) (db : List HistRow)
    (today : List Char) (net : ℕ → Bool) (m : SummaryMsg)
    (h : send_daily_summary vip db today net = some m)
    (hres : 0 < spec_resolved_count (get_daily_predictions_summary db today)) :
    m.roi = spec_profit_sum (get_daily_predictions_summary db today) /
      (spec_resolved_count (get_daily_predictions_summary db today) : ℚ) * 100 := by
  cases vip with
  | none => exact absurd h (by simp [send_daily_summary])
  | some ch =>
    simp only [send_daily_summary] at h
    by_cases hpe : (get_daily_predictions_summary db today).isEmpty
    · rw [if_pos hpe] at h
      exact absurd h (by simp)
    · rw [if_neg hpe] at h
      by_cases hnet : net 0
      · rw [if_pos hnet] at h
        have hm : m = summaryStats (get_daily_predictions_summary db today) := by
          injection h with h'
          exact h'.symm
        rw [hm]
        exact summaryStats_roi _ hres
      · rw [if_neg hnet] at h
        exact absurd h (by simp)

/-- C9 witness: the claim's example — greens at odds 2.0 and 1.5 plus one
red give profit 0.5 over 3 resolved bets, ROI 50/3 % (≈ 16.7%). -/
theorem daily_summary_roi_formula_witness :
    exMsgC9.roi = spec_profit_sum (get_daily_predictions_summary exDbC9 exTodayC9) /
      (spec_resolved_count (get_daily_predictions_summary exDbC9 exTodayC9) : ℚ) * 100 ∧
    exMsgC9.roi = 50 / 3 := by
  constructor
  · exact daily_summary_roi_formula (some 1) exDbC9 exTodayC9 (fun _ => true) exMsgC9
      rfl (by decide)
  · decide

/-- C10: `evaluate_prediction` is total on present fixture results — it
returns green or red for every text — and returns the out-of-band `none`
exactly when the fixture-result argument is absent (Python `None` or an
empty mapping). -/
theorem evaluate_totality_and_none (text : List Char) (fr : FixtureResult) :
    (evaluate_prediction text (some fr) = some Verdict.green ∨
      evaluate_prediction text (some fr) = some Verdict.red) ∧
    evaluate_prediction text none = none := by
  refine ⟨?_, rfl⟩
  cases h : evaluateCore text fr with
  | green => exact Or.inl (by simp [evaluate_prediction, h])
  | red => exact Or.inr (by simp [evaluate_prediction, h])

end ZeusBot
